import Mathlib

/-!
Verification of the micro-device-plugin core (pkg/server/server.go,
cmd/micro/micro.go) against its specification.

The Go code is shallowly embedded: the in-memory device map becomes an
association list with Go-map update semantics, the filesystem watcher's
event loop becomes a step function over explicit events, and the gRPC
surface (Allocate, ListAndWatch, registration) becomes pure functions of
their inputs plus explicit outcome oracles for the I/O calls.
-/

set_option maxRecDepth 4000

namespace MicroDevicePlugin

/-! ### Constants from server.go -/

def resourceName : String := "micro.plugin"
def microPath : String := "/etc/micro"
def microSocket : String := "micro.sock"
def kubeSocket : String := "kubelet.sock"
def pluginPath : String := "/var/lib/kubelet/device-plugins"

def maxRestartNum : Nat := 5
def maxCrashPeriod : Nat := 3600

/-- `deviceapi.Healthy` from k8s.io/kubelet deviceplugin v1beta1. -/
def deviceapiHealthy : String := "Healthy"

/-- `deviceapi.Version` from k8s.io/kubelet deviceplugin v1beta1. -/
def deviceapiVersion : String := "v1beta1"

/-! ### MD5 (crypto/md5), used by the identifier derivation

Bytes are `Nat` values below 256; 32-bit words are `Nat` values reduced
mod `2^32` at every arithmetic step, as in the reference algorithm. -/

/-- Rotate a 32-bit word left by `s` bits (for `x < 2^32`, `s ≤ 32`). -/
def rotl32 (x s : Nat) : Nat := ((x <<< s) ||| (x >>> (32 - s))) % 2^32

/-- The 64 MD5 sine-derived constants. -/
def md5K : List Nat :=
  [0xd76aa478, 0xe8c7b756, 0x242070db, 0xc1bdceee,
   0xf57c0faf, 0x4787c62a, 0xa8304613, 0xfd469501,
   0x698098d8, 0x8b44f7af, 0xffff5bb1, 0x895cd7be,
   0x6b901122, 0xfd987193, 0xa679438e, 0x49b40821,
   0xf61e2562, 0xc040b340, 0x265e5a51, 0xe9b6c7aa,
   0xd62f105d, 0x02441453, 0xd8a1e681, 0xe7d3fbc8,
   0x21e1cde6, 0xc33707d6, 0xf4d50d87, 0x455a14ed,
   0xa9e3e905, 0xfcefa3f8, 0x676f02d9, 0x8d2a4c8a,
   0xfffa3942, 0x8771f681, 0x6d9d6122, 0xfde5380c,
   0xa4beea44, 0x4bdecfa9, 0xf6bb4b60, 0xbebfbc70,
   0x289b7ec6, 0xeaa127fa, 0xd4ef3085, 0x04881d05,
   0xd9d4d039, 0xe6db99e5, 0x1fa27cf8, 0xc4ac5665,
   0xf4292244, 0x432aff97, 0xab9423a7, 0xfc93a039,
   0x655b59c3, 0x8f0ccc92, 0xffeff47d, 0x85845dd1,
   0x6fa87e4f, 0xfe2ce6e0, 0xa3014314, 0x4e0811a1,
   0xf7537e82, 0xbd3af235, 0x2ad7d2bb, 0xeb86d391]

/-- The 64 MD5 per-step left-rotation amounts. -/
def md5S : List Nat :=
  [7, 12, 17, 22, 7, 12, 17, 22, 7, 12, 17, 22, 7, 12, 17, 22,
   5, 9, 14, 20, 5, 9, 14, 20, 5, 9, 14, 20, 5, 9, 14, 20,
   4, 11, 16, 23, 4, 11, 16, 23, 4, 11, 16, 23, 4, 11, 16, 23,
   6, 10, 15, 21, 6, 10, 15, 21, 6, 10, 15, 21, 6, 10, 15, 21]

/-- Little-endian 32-bit word read from byte list `bs` at offset `i`. -/
def wordLE (bs : List Nat) (i : Nat) : Nat :=
  bs.getD i 0 + bs.getD (i + 1) 0 * 2^8 + bs.getD (i + 2) 0 * 2^16 +
    bs.getD (i + 3) 0 * 2^24

/-- One of the 64 MD5 steps on state `(a, b, c, d)`; `X` reads the
message-schedule word. -/
def md5Round (X : Nat → Nat) (st : Nat × Nat × Nat × Nat) (i : Nat) :
    Nat × Nat × Nat × Nat :=
  match st with
  | (a, b, c, d) =>
    let f :=
      if i < 16 then (b &&& c) ||| ((2^32 - 1 - b) &&& d)
      else if i < 32 then (d &&& b) ||| ((2^32 - 1 - d) &&& c)
      else if i < 48 then b ^^^ c ^^^ d
      else c ^^^ (b ||| (2^32 - 1 - d))
    let g :=
      if i < 16 then i
      else if i < 32 then (5 * i + 1) % 16
      else if i < 48 then (3 * i + 5) % 16
      else 7 * i % 16
    let tmp := (a + f + md5K.getD i 0 + X g) % 2^32
    (d, (b + rotl32 tmp (md5S.getD i 0)) % 2^32, b, c)

/-- Process one 64-byte chunk. -/
def md5Chunk (st : Nat × Nat × Nat × Nat) (chunk : List Nat) :
    Nat × Nat × Nat × Nat :=
  let X := fun g => wordLE chunk (4 * g)
  let r := (List.range 64).foldl (md5Round X) st
  ((r.1 + st.1) % 2^32, (r.2.1 + st.2.1) % 2^32,
   (r.2.2.1 + st.2.2.1) % 2^32, (r.2.2.2 + st.2.2.2) % 2^32)

/-- The 64-bit message bit length, little-endian. -/
def lenBytesLE (n : Nat) : List Nat :=
  (List.range 8).map (fun i => n / 2^(8 * i) % 256)

/-- MD5 padding: a 0x80 byte, zeros to 56 mod 64, then the bit length. -/
def md5Pad (msg : List Nat) : List Nat :=
  let withOne := msg ++ [0x80]
  let zeros := (56 + 64 - withOne.length % 64) % 64
  withOne ++ List.replicate zeros 0 ++ lenBytesLE (msg.length * 8 % 2^64)

def md5InitState : Nat × Nat × Nat × Nat :=
  (0x67452301, 0xefcdab89, 0x98badcfe, 0x10325476)

/-- Serialize one 32-bit state word to four little-endian bytes. -/
def wordBytesLE (w : Nat) : List Nat :=
  [w % 256, w / 2^8 % 256, w / 2^16 % 256, w / 2^24 % 256]

/-- `md5.Sum`: the 16-byte MD5 digest of a byte sequence. -/
def md5Sum (msg : List Nat) : List Nat :=
  let padded := md5Pad msg
  let st := (List.range (padded.length / 64)).foldl
    (fun st i => md5Chunk st ((padded.drop (64 * i)).take 64)) md5InitState
  wordBytesLE st.1 ++ wordBytesLE st.2.1 ++ wordBytesLE st.2.2.1 ++
    wordBytesLE st.2.2.2

/-- UTF-8 encoding of one code point, as Go's `[]byte(string)` produces. -/
def utf8EncodeChar (c : Nat) : List Nat :=
  if c < 0x80 then [c]
  else if c < 0x800 then [0xc0 + c / 64, 0x80 + c % 64]
  else if c < 0x10000 then
    [0xe0 + c / 4096, 0x80 + c / 64 % 64, 0x80 + c % 64]
  else
    [0xf0 + c / 262144, 0x80 + c / 4096 % 64, 0x80 + c / 64 % 64,
     0x80 + c % 64]

/-- Go's `[]byte(s)`: the UTF-8 bytes of a string. -/
def utf8Bytes (s : String) : List Nat :=
  s.data.foldr (fun c acc => utf8EncodeChar c.toNat ++ acc) []

/-- Sanity anchors for the MD5 embedding against published test vectors. -/
example : md5Sum [] =
    [0xd4, 0x1d, 0x8c, 0xd9, 0x8f, 0x00, 0xb2, 0x04,
     0xe9, 0x80, 0x09, 0x98, 0xec, 0xf8, 0x42, 0x7e] := by decide

example : md5Sum (utf8Bytes "abc") =
    [0x90, 0x01, 0x50, 0x98, 0x3c, 0xd2, 0x4f, 0xb0,
     0xd6, 0x96, 0x3f, 0x7d, 0x28, 0xe1, 0x7f, 0x72] := by decide

/-! ### Device registry (the `devices map[string]*deviceapi.Device` field)

A Go map is embedded as an association list with at most one binding per
key: insertion overwrites in place or appends, deletion filters. -/

/-- A `deviceapi.Device` record as the server populates it: the 16-byte
identifier (Go stores it as a raw-byte string) and the health state. -/
structure Device where
  ID : List Nat
  Health : String
deriving Repr, DecidableEq

abbrev Registry := List (String × Device)

/-- Go map assignment `m[k] = v`. -/
def mapSet (m : Registry) (k : String) (v : Device) : Registry :=
  if m.any (fun p => p.1 == k) then
    m.map (fun p => if p.1 == k then (k, v) else p)
  else m ++ [(k, v)]

/-- Go `delete(m, k)`. -/
def mapDelete (m : Registry) (k : String) : Registry :=
  m.filter (fun p => p.1 != k)

def keys (m : Registry) : List String := m.map Prod.fst

/-- The device list `ListAndWatch` builds by iterating the map's values. -/
def snapshot (m : Registry) : List Device := m.map Prod.snd

/-! ### Device discovery and watching (findDevice, watchDevice) -/

/-- A directory entry as `os.ReadDir` reports it: name and directory flag. -/
structure DirEntry where
  name : String
  isDir : Bool
deriving Repr, DecidableEq

/-- Identifier derivation in `findDevice` (server.go:251-252):
`md5.Sum([]byte(f.Name()))`. -/
def findDeviceID (name : String) : List Nat := md5Sum (utf8Bytes name)

/-- Identifier derivation in the create branch of `watchDevice`
(server.go:286-287): `md5.Sum([]byte(event.Name))`. -/
def watchDeviceID (name : String) : List Nat := md5Sum (utf8Bytes name)

/-- `findDevice` (server.go:241-260): enumerate the directory, skip
directories, and store a `Healthy` record keyed by the entry's name. -/
def findDevice (m : Registry) (entries : List DirEntry) : Registry :=
  entries.foldl
    (fun m f =>
      if f.isDir then m
      else mapSet m f.name ⟨findDeviceID f.name, deviceapiHealthy⟩) m

/-- A filesystem notification as fsnotify delivers it: the event's path
string and which operation bits are set. -/
structure FsEvent where
  name : String
  isCreate : Bool
  isRemove : Bool
deriving Repr

/-- One iteration of the event branch of `watchDevice` (server.go:279-299):
on a create bit, store a `Healthy` record under the event name; on a
remove bit, delete that key and send one notification on the channel.
Returns the new registry and the number of notifications emitted. -/
def watchStep (m : Registry) (e : FsEvent) : Registry × Nat :=
  let m1 :=
    if e.isCreate then mapSet m e.name ⟨watchDeviceID e.name, deviceapiHealthy⟩
    else m
  if e.isRemove then (mapDelete m1 e.name, 1) else (m1, 0)

/-- The watcher applied to a whole event sequence. -/
def watchRun (m : Registry) (es : List FsEvent) : Registry :=
  es.foldl (fun m e => (watchStep m e).1) m

/-! ### The watched directory and the events it generates

`findDevice` reads entry basenames from `os.ReadDir(microPath)`, while
fsnotify events on a watched directory carry the full path
`microPath ++ "/" ++ name`. -/

/-- An external filesystem change in the watched directory. -/
inductive DirEvent
  | create (name : String) (isDir : Bool)
  | remove (name : String)
deriving Repr

/-- How the directory contents evolve under an event. -/
def applyDirEvent (d : List DirEntry) : DirEvent → List DirEntry
  | DirEvent.create n dir =>
    if d.any (fun f => f.name == n) then d else d ++ [⟨n, dir⟩]
  | DirEvent.remove n => d.filter (fun f => f.name != n)

/-- The path fsnotify reports for entry `n` of the watched directory. -/
def eventPath (n : String) : String := microPath ++ "/" ++ n

/-- The fsnotify event the watcher receives for a directory change. -/
def toFsEvent : DirEvent → FsEvent
  | DirEvent.create n _ => ⟨eventPath n, true, false⟩
  | DirEvent.remove n => ⟨eventPath n, false, true⟩

/-- Joint evolution of (directory contents, registry) under one event. -/
def systemStep (st : List DirEntry × Registry) (e : DirEvent) :
    List DirEntry × Registry :=
  (applyDirEvent st.1 e, (watchStep st.2 (toFsEvent e)).1)

/-- Initial scan followed by a sequence of filesystem events. -/
def systemRun (entries : List DirEntry) (es : List DirEvent) :
    List DirEntry × Registry :=
  es.foldl systemStep (entries, findDevice [] entries)

/-- The non-directory entries currently present in the directory. -/
def presentFiles (d : List DirEntry) : List String :=
  (d.filter (fun f => !f.isDir)).map DirEntry.name

/-! ### Allocate (server.go:175-187) -/

/-- One `deviceapi.ContainerAllocateResponse`: its environment map. -/
structure ContainerAllocateResponse where
  Envs : List (String × String)
deriving Repr, DecidableEq

/-- Go's `strings.Join(elems, sep)`. -/
def goJoin (elems : List String) (sep : String) : String :=
  match elems with
  | [] => ""
  | x :: xs => xs.foldl (fun acc e => acc ++ sep ++ e) x

/-- `Allocate`: for each container request (a list of device IDs) append a
response whose sole environment entry joins the IDs with commas; the
returned error is always nil. -/
def Allocate (reqs : List (List String)) :
    List ContainerAllocateResponse × Option String :=
  (reqs.foldl
    (fun result req =>
      result ++ [⟨[("MICRO_DEVICES", goJoin req ",")]⟩]) [], none)

/-! ### ListAndWatch (server.go:190-221)

The stream loop is embedded over an explicit finite schedule of wake-ups.
A `notify` wake carries the registry contents at that instant (the watcher
mutates it concurrently) and whether the stream send succeeds; `done` is
the process-wide cancellation. Messages are recorded as send attempts. -/

inductive LWExit
  | clean
  | sendError
deriving Repr, DecidableEq

inductive Wake
  | notify (reg : Registry) (sendOk : Bool)
  | done
deriving Repr

/-- The `for { select ... } }` loop: on a notification take a fresh
snapshot and send it — the send's error is discarded (server.go:215) and
the loop continues; on cancellation return nil. `none` means the loop is
still blocked after the schedule is exhausted. -/
def lwLoop : List Wake → List (List Device) × Option LWExit
  | [] => ([], none)
  | Wake.notify reg _ :: rest =>
    let r := lwLoop rest
    (snapshot reg :: r.1, r.2)
  | Wake.done :: _ => ([], some LWExit.clean)

/-- `ListAndWatch`: send a snapshot of the registry at subscribe time; if
that first send fails return its error, otherwise enter the loop. -/
def ListAndWatch (reg : Registry) (initSendOk : Bool) (wakes : List Wake) :
    List (List Device) × Option LWExit :=
  if initSendOk then
    let r := lwLoop wakes
    (snapshot reg :: r.1, r.2)
  else ([snapshot reg], some LWExit.sendError)

/-! ### Server supervisor restart loop (server.go:118-141) -/

/-- One crash of `s.serv.Serve`: given the restart counter and the seconds
elapsed since the loop first started, return the updated counter and
whether the quitting-severity message was logged this iteration (the check
reads the counter before the update). -/
def serveStep (restartNum : Nat) (crashSeconds : Nat) : Nat × Bool :=
  let terminal := decide (restartNum > maxRestartNum)
  let n2 := if crashSeconds > maxCrashPeriod then 1 else restartNum + 1
  (n2, terminal)

/-- The supervisor loop over a sequence of crashes (each given by its
elapsed time since first start); the loop never exits on a crash, so every
crash is processed. Returns the per-crash log of (counter, terminal). -/
def serveLoop (crashes : List Nat) : List (Nat × Bool) :=
  (crashes.foldl
    (fun (acc : List (Nat × Bool) × Nat) e =>
      let st := serveStep acc.2 e
      (acc.1 ++ [st], st.1)) ([], 0)).1

/-! ### Registration handshake (server.go:152-172, micro.go main) -/

/-- The socket path `Run` listens on: `net.Listen("unix",
pluginPath+microSocket)` (server.go:113). -/
def advertisementSocketPath : String := pluginPath ++ microSocket

/-- The dial timeout passed to `s.dial` in `RegisterToKubelet`, seconds. -/
def registerDialTimeoutSeconds : Nat := 5

structure RegisterRequest where
  version : String
  endpoint : String
  resourceName : String
deriving Repr, DecidableEq

/-- Go's `path.Base`: strip trailing slashes, take the last component;
`""` gives `"."` and an all-slash path gives `"/"`. -/
def pathBase (p : String) : String :=
  if p = "" then "."
  else
    let cs := (p.data.reverse.dropWhile (fun c => c == '/')).reverse
    if cs = [] then "/"
    else String.mk ((cs.reverse.takeWhile (fun c => c != '/')).reverse)

/-- The registration message `RegisterToKubelet` builds (server.go:161-165). -/
def registerRequest : RegisterRequest :=
  { version := deviceapiVersion
    endpoint := pathBase (pluginPath ++ microSocket)
    resourceName := MicroDevicePlugin.resourceName }

/-- `RegisterToKubelet` with the outcomes of its two external calls made
explicit: a dial error is returned before any request is sent; otherwise
the request is sent once and an RPC error is returned as-is. Returns
(returned error, the request sent, if any). -/
def RegisterToKubelet (dialErr : Option String) (rpcErr : Option String) :
    Option String × Option RegisterRequest :=
  match dialErr with
  | some e => (some e, none)
  | none =>
    match rpcErr with
    | some e => (some e, some registerRequest)
    | none => (none, some registerRequest)

/-- `main` (micro.go:70-74): a registration failure makes the process exit
with code 1; on success it keeps running (no exit). -/
def mainRegisterExit (result : Option String) : Option Nat :=
  match result with
  | some _ => some 1
  | none => none

/-! ### Run (server.go:94-149) -/

/-- Outcome of `syscall.Unlink` of the stale socket. -/
inductive UnlinkRes
  | ok
  | notExist
  | fail (e : String)
deriving Repr

/-- The external outcomes `Run` depends on. -/
structure RunEnv where
  readDir : Except String (List DirEntry)
  unlink : UnlinkRes
  listen : Option String
  dial : Option String

/-- What `Run` produced: its returned error, whether the serving goroutine
was started, and the registry after the initial scan. -/
structure RunOut where
  result : Option String
  serveStarted : Bool
  registry : Registry
deriving Repr, DecidableEq

/-- `Run`: initial scan (a read error is returned at once), stale-socket
unlink (a real error is returned), socket bind (an error is returned),
then the serving goroutine starts and the readiness self-dial runs. -/
def Run (env : RunEnv) : RunOut :=
  match env.readDir with
  | Except.error e => ⟨some e, false, []⟩
  | Except.ok entries =>
    let reg := findDevice [] entries
    match env.unlink with
    | UnlinkRes.fail e => ⟨some e, false, reg⟩
    | _ =>
      match env.listen with
      | some e => ⟨some e, false, reg⟩
      | none =>
        match env.dial with
        | some e => ⟨some e, true, reg⟩
        | none => ⟨none, true, reg⟩

/-- All records in the registry carry the `Healthy` state. -/
def allHealthy (m : Registry) : Bool :=
  m.all (fun p => p.2.Health == deviceapiHealthy)

/-! ### Helper lemmas -/

theorem md5Sum_length (msg : List Nat) : (md5Sum msg).length = 16 := by
  simp [md5Sum, wordBytesLE]

theorem allocate_foldl_eq (reqs : List (List String))
    (acc : List ContainerAllocateResponse) :
    reqs.foldl
      (fun result req =>
        result ++ [⟨[("MICRO_DEVICES", goJoin req ",")]⟩]) acc =
    acc ++ reqs.map (fun ids => ⟨[("MICRO_DEVICES", goJoin ids ",")]⟩) := by
  induction reqs generalizing acc with
  | nil => simp
  | cons x xs ih => simp [List.foldl_cons, ih]

theorem allHealthy_mapSet (m : Registry) (k : String) (v : Device)
    (hm : allHealthy m = true) (hv : v.Health = deviceapiHealthy) :
    allHealthy (mapSet m k v) = true := by
  simp only [allHealthy, List.all_eq_true] at hm ⊢
  intro p hp
  unfold mapSet at hp
  split at hp
  · rcases List.mem_map.mp hp with ⟨q, hq, hpq⟩
    subst hpq
    split
    · simp [hv]
    · exact hm q hq
  · rcases List.mem_append.mp hp with h | h
    · exact hm p h
    · rcases List.mem_singleton.mp h with rfl
      simp [hv]

theorem allHealthy_mapDelete (m : Registry) (k : String)
    (hm : allHealthy m = true) : allHealthy (mapDelete m k) = true := by
  simp only [allHealthy, List.all_eq_true] at hm ⊢
  intro p hp
  exact hm p (List.mem_filter.mp hp).1

theorem allHealthy_findDevice (m : Registry) (entries : List DirEntry)
    (hm : allHealthy m = true) : allHealthy (findDevice m entries) = true := by
  induction entries generalizing m with
  | nil => simpa [findDevice] using hm
  | cons f fs ih =>
    by_cases hd : f.isDir
    · simpa [findDevice, List.foldl_cons, hd] using ih m hm
    · simpa [findDevice, List.foldl_cons, hd] using
        ih (mapSet m f.name ⟨findDeviceID f.name, deviceapiHealthy⟩)
          (allHealthy_mapSet m _ _ hm rfl)

theorem allHealthy_watchStep (m : Registry) (e : FsEvent)
    (hm : allHealthy m = true) : allHealthy (watchStep m e).1 = true := by
  rcases e with ⟨n, c, r⟩
  cases c <;> cases r
  · simpa [watchStep] using hm
  · simpa [watchStep] using allHealthy_mapDelete m n hm
  · simpa [watchStep] using allHealthy_mapSet m n _ hm rfl
  · simpa [watchStep] using
      allHealthy_mapDelete _ n (allHealthy_mapSet m n _ hm rfl)

theorem allHealthy_watchRun (m : Registry) (es : List FsEvent)
    (hm : allHealthy m = true) : allHealthy (watchRun m es) = true := by
  induction es generalizing m with
  | nil => simpa [watchRun] using hm
  | cons e es ih =>
    simpa [watchRun, List.foldl_cons] using
      ih (watchStep m e).1 (allHealthy_watchStep m e hm)

theorem serveLoop_aux (crashes : List Nat) (acc : List (Nat × Bool)) (n : Nat) :
    (crashes.foldl
      (fun (acc : List (Nat × Bool) × Nat) e =>
        let st := serveStep acc.2 e
        (acc.1 ++ [st], st.1)) (acc, n)).1.length =
      acc.length + crashes.length := by
  induction crashes generalizing acc n with
  | nil => simp
  | cons x xs ih => simp [List.foldl_cons, ih]; omega

/-! ### Claim theorems -/

/-- C1: the claim says the registry's key set always ends up equal to the
set of non-directory entries in the watched directory. It fails: the scan
keys records by entry basename while fsnotify events carry the full path,
so removing the initially present file `dev0` leaves its record behind
(the registry still has key `dev0` with the directory empty), and a
created file is recorded under `/etc/micro/dev1` rather than `dev1`. -/
theorem registry_directory_desync :
    presentFiles (systemRun [⟨"dev0", false⟩] [DirEvent.remove "dev0"]).1 =
      [] ∧
    keys (systemRun [⟨"dev0", false⟩] [DirEvent.remove "dev0"]).2 =
      ["dev0"] ∧
    (keys (systemRun [⟨"dev0", false⟩] [DirEvent.remove "dev0"]).2 ==
      presentFiles
        (systemRun [⟨"dev0", false⟩] [DirEvent.remove "dev0"]).1) = false ∧
    keys (systemRun [] [DirEvent.create "dev1" false]).2 =
      [eventPath "dev1"] ∧
    presentFiles (systemRun [] [DirEvent.create "dev1" false]).1 =
      ["dev1"] := by
  decide

/-- C2: `Allocate` never fails, returns one container response per
container request, and the i-th response's single environment entry is the
i-th request's device IDs joined by commas (the empty list giving the
empty string); the IDs flow through verbatim with no registry lookup. -/
theorem allocate_joins_ids :
    (∀ reqs, (Allocate reqs).2 = none) ∧
    (∀ reqs, (Allocate reqs).1.length = reqs.length) ∧
    (∀ reqs (i : Nat), (Allocate reqs).1[i]? =
      (reqs[i]?).map
        (fun ids => ContainerAllocateResponse.mk
          [("MICRO_DEVICES", goJoin ids ",")])) ∧
    goJoin [] "," = "" ∧ goJoin ["d1", "d2"] "," = "d1,d2" := by
  refine ⟨fun reqs => rfl, fun reqs => ?_, fun reqs i => ?_, rfl, rfl⟩
  · simp [Allocate, allocate_foldl_eq]
  · simp [Allocate, allocate_foldl_eq, List.getElem?_map]

/-- C3: both the initial scan and the create-event handler derive the
identifier as the MD5 digest of the name they are given, so the derivation
is one shared deterministic function; the digest is always 16 bytes wide;
and on concrete distinct names the identifiers differ. -/
theorem device_id_derivation :
    (∀ n, findDeviceID n = watchDeviceID n) ∧
    (∀ n, (findDeviceID n).length = 16) ∧
    (findDeviceID "dev0" == findDeviceID "dev1") = false := by
  refine ⟨fun n => rfl, fun n => md5Sum_length _, by decide⟩

/-- C4: whatever the registry holds at subscribe time (including nothing),
the first message `ListAndWatch` sends on a new stream is exactly a
snapshot of the registry taken at that moment. -/
theorem listandwatch_first_message (reg : Registry) (initSendOk : Bool)
    (wakes : List Wake) :
    ((ListAndWatch reg initSendOk wakes).1).head? = some (snapshot reg) := by
  cases initSendOk <;> simp [ListAndWatch]

/-- C5 counterexample: the claim says any send failure on the stream
terminates the call with an error, but the loop discards the send's error
(server.go:215): with a failed send during a notification wake followed by
cancellation, the call still terminates cleanly, not with an error. -/
theorem listandwatch_send_failure_not_fatal :
    (ListAndWatch [] true [Wake.notify [] false, Wake.done]).2 =
      some LWExit.clean ∧
    decide ((ListAndWatch [] true [Wake.notify [] false, Wake.done]).2 =
      some LWExit.sendError) = false := by
  decide

/-- C5 amended: after the initial snapshot the loop wakes only on a change
notification — sending a fresh snapshot and continuing regardless of that
send's outcome — or on process-wide cancellation, returning no error; only
a failure of the initial snapshot send terminates the call with an error. -/
theorem listandwatch_loop_behavior :
    (∀ reg wakes,
      ListAndWatch reg false wakes = ([snapshot reg], some LWExit.sendError)) ∧
    (∀ reg2 ok rest, lwLoop (Wake.notify reg2 ok :: rest) =
      (snapshot reg2 :: (lwLoop rest).1, (lwLoop rest).2)) ∧
    (∀ rest, lwLoop (Wake.done :: rest) = ([], some LWExit.clean)) :=
  ⟨fun _ _ => rfl, fun _ _ _ => rfl, fun _ => rfl⟩

/-- C6: a create event upserts a `Healthy` record under the event's name
and emits no notification; a remove event deletes that key and emits
exactly one notification; and each notification makes an open stream's
loop push exactly one fresh snapshot next. -/
theorem watch_event_asymmetry :
    (∀ m n, watchStep m ⟨n, true, false⟩ =
      (mapSet m n ⟨watchDeviceID n, deviceapiHealthy⟩, 0)) ∧
    (∀ m n, watchStep m ⟨n, false, true⟩ = (mapDelete m n, 1)) ∧
    (∀ reg rest,
      (lwLoop (Wake.notify reg true :: rest)).1.head? = some (snapshot reg)) :=
  ⟨fun _ _ => rfl, fun _ _ => rfl, fun _ _ => rfl⟩

/-- C7: at each crash of the serving call, the counter resets to 1 when the
elapsed time since the loop first started exceeds the 3600-unit crash
period and increments otherwise; the quitting-severity message is logged
exactly when the counter (read before the update) exceeds the maximum
restart count; and the loop processes every crash rather than stopping. -/
theorem supervisor_backoff :
    (∀ n e, e > maxCrashPeriod → (serveStep n e).1 = 1) ∧
    (∀ n e, e ≤ maxCrashPeriod → (serveStep n e).1 = n + 1) ∧
    (∀ n e, n > maxRestartNum → (serveStep n e).2 = true) ∧
    (∀ n e, n ≤ maxRestartNum → (serveStep n e).2 = false) ∧
    (∀ crashes, (serveLoop crashes).length = crashes.length) ∧
    maxCrashPeriod = 3600 ∧ maxRestartNum = 5 := by
  refine ⟨fun n e h => ?_, fun n e h => ?_, fun n e h => ?_, fun n e h => ?_,
    fun crashes => ?_, rfl, rfl⟩
  · simp [serveStep, h]
  · simp [serveStep, Nat.not_lt.mpr h]
  · simp [serveStep, h]
  · simp [serveStep, Nat.not_lt.mpr h]
  · simpa [serveLoop] using serveLoop_aux crashes [] 0

/-- Witness for C7 at concrete inputs: a crash at 3601 units resets the
counter to 1, one at 3600 increments, the terminal log fires at counter 6
and not at 5, and a two-crash schedule is processed in full. -/
theorem supervisor_backoff_witness :
    (serveStep 0 3601).1 = 1 ∧ (serveStep 1 3600).1 = 2 ∧
    (serveStep 6 0).2 = true ∧ (serveStep 5 0).2 = false ∧
    (serveLoop [10, 20]).length = 2 :=
  ⟨supervisor_backoff.1 0 3601 (by decide),
   supervisor_backoff.2.1 1 3600 (by decide),
   supervisor_backoff.2.2.1 6 0 (by decide),
   supervisor_backoff.2.2.2.1 5 0 (by decide),
   supervisor_backoff.2.2.2.2.1 [10, 20]⟩

/-- C8: the registration message is exactly {protocol version,
advertisement-socket basename, resource name}; a dial error is returned
before anything is sent and an RPC error is returned as-is, with no retry
in either case; the dial timeout is the bounded 5 seconds; and a
registration failure makes `main` exit with code 1. -/
theorem register_handshake :
    registerRequest =
      ⟨deviceapiVersion, pathBase advertisementSocketPath,
        MicroDevicePlugin.resourceName⟩ ∧
    registerRequest.endpoint = "device-pluginsmicro.sock" ∧
    (∀ e rpc, RegisterToKubelet (some e) rpc = (some e, none)) ∧
    (∀ e, RegisterToKubelet none (some e) = (some e, some registerRequest)) ∧
    RegisterToKubelet none none = (none, some registerRequest) ∧
    registerDialTimeoutSeconds = 5 ∧
    (∀ e, mainRegisterExit (some e) = some 1) :=
  ⟨rfl, by decide, fun _ _ => rfl, fun _ => rfl, rfl, rfl, fun _ => rfl⟩

/-- C9: if the initial directory read fails, `Run` returns that error with
the serving goroutine never started; likewise if binding the advertisement
socket fails (whether the stale socket was unlinked or did not exist), the
bind error is returned and serving never starts. -/
theorem run_fatal_startup_errors :
    (∀ e unl lis dia,
      Run ⟨Except.error e, unl, lis, dia⟩ = ⟨some e, false, []⟩) ∧
    (∀ entries e dia,
      Run ⟨Except.ok entries, UnlinkRes.ok, some e, dia⟩ =
        ⟨some e, false, findDevice [] entries⟩) ∧
    (∀ entries e dia,
      Run ⟨Except.ok entries, UnlinkRes.notExist, some e, dia⟩ =
        ⟨some e, false, findDevice [] entries⟩) :=
  ⟨fun _ _ _ _ => rfl, fun _ _ _ => rfl, fun _ _ _ => rfl⟩

/-- C10: starting from the empty registry, after the initial scan and any
sequence of watcher events, every stored record's health state is
`Healthy`; no operation ever stores an `Unhealthy` record. -/
theorem registry_always_healthy (entries : List DirEntry) (es : List FsEvent) :
    allHealthy (watchRun (findDevice [] entries) es) = true :=
  allHealthy_watchRun (findDevice [] entries) es
    (allHealthy_findDevice [] entries rfl)

end MicroDevicePlugin
